import Mathlib

/-!
Verification development for the instaclustr_exporter repository.

The repository exports InstaClustr Cassandra metrics to Prometheus.  Its core
is a collection pipeline (`collector/cassandra.go`, with an older variant of
the same file kept alongside) that, per scrape:
fetches the cluster list from the provisioning API, per cluster fetches the
datacentre/node status, per node fetches monitoring metrics, and maps every
decoded record to Prometheus const-metric observations.

Modelling conventions, fixed throughout this file:
- Raw upstream response bytes are modelled as `Option Json`: `none` stands for
  bytes that do not parse as JSON (including the `nil` slice the Go client
  returns on a transport error), `some j` for bytes whose parsed JSON value is
  `j`.  `encoding/json.Unmarshal` is then modelled per target shape, following
  Go semantics: unknown object keys are ignored (matching is exact-or-caseless,
  last match wins), absent keys leave the zero value, `null` leaves the zero
  value, and a shape mismatch is a decode error.  Each decode is modelled into
  a fresh zero value; the Go code reuses one shared `dcs`/`ms` variable across
  goroutines, a data race outside the scope of this sequential model.
- float64 values are modelled as `ℚ`.  The claims under study only involve
  values and transforms that are exact (0, 1, 3, finite decimal literals,
  multiplication by the constant 1e-6), so rational arithmetic reflects the
  structure of the computation.  `strconv.ParseFloat` is modelled on the
  decimal syntax it accepts; the non-finite forms (inf/nan) and hex floats
  have no rational counterpart and do not occur in this system's data.
- Goroutines are sequentialized: each per-cluster (resp. per-node) goroutine
  body runs atomically in spawn order.  The emitted metric set is the
  concatenation of what each body sends on the channel.
- A Go runtime panic (e.g. index out of range) in a collector goroutine kills
  the process; a computation that panics is modelled as `RunResult.crashed`.
-/

/-- A parsed JSON document.  Numbers carry their exact decimal value. -/
inductive Json where
  | null
  | bool (b : Bool)
  | num (q : ℚ)
  | str (s : String)
  | arr (elems : List Json)
  | obj (fields : List (String × Json))

/-- Outcome of running a piece of Go code that may panic (and thereby crash
the whole process, since the collectors run in goroutines with no recover). -/
inductive RunResult (α : Type) where
  | ok (val : α)
  | crashed
deriving DecidableEq

namespace GoStrconv

/-- Numeric value of a list of decimal digit characters. -/
def digitsVal (ds : List Char) : Nat :=
  ds.foldl (fun a c => 10 * a + (c.toNat - 48)) 0

/-- Parse the exponent suffix of a float literal ("e08", "E-3", ... or
nothing), requiring that it consume the entire remaining input. -/
def parseExpSuffix : List Char → Option Int
  | [] => some 0
  | c :: rest =>
    if c = 'e' ∨ c = 'E' then
      let (esign, rest') : Int × List Char :=
        match rest with
        | '-' :: r => (-1, r)
        | '+' :: r => (1, r)
        | _ => (1, rest)
      let (eds, rest'') := rest'.span (·.isDigit)
      if eds.isEmpty ∨ ¬ rest''.isEmpty then none
      else some (esign * (digitsVal eds : Int))
    else none

/-- Model of Go `strconv.ParseFloat(s, 64)` on the finite decimal syntax:
optional sign, decimal mantissa with optional fractional part (at least one
digit overall), optional decimal exponent.  Returns the exact value; `none`
models a parse error (err != nil in Go). -/
def ParseFloat (s : String) : Option ℚ :=
  let cs := s.toList
  let (neg, cs1) : Bool × List Char :=
    match cs with
    | '-' :: r => (true, r)
    | '+' :: r => (false, r)
    | _ => (false, cs)
  let (ip, cs2) := cs1.span (·.isDigit)
  let (fp, cs3) : List Char × List Char :=
    match cs2 with
    | '.' :: r => r.span (·.isDigit)
    | _ => ([], cs2)
  if ip.isEmpty ∧ fp.isEmpty then none
  else
    match parseExpSuffix cs3 with
    | none => none
    | some e =>
      let digits : Int := (digitsVal (ip ++ fp) : Int)
      let e' : Int := e - (fp.length : Int)
      let mag : ℚ :=
        if 0 ≤ e' then mkRat (digits * (10 ^ e'.toNat : Nat)) 1
        else mkRat digits (10 ^ (-e').toNat)
      some (if neg then -mag else mag)

end GoStrconv

/-! ## Model of the prometheus client library surface used by the collectors

Only `prometheus.NewDesc`, `prometheus.BuildFQName`, `prometheus.GaugeValue` /
`CounterValue` and `prometheus.MustNewConstMetric` are used.  A const metric
sent on the collect channel is modelled as an `Observation`. -/

namespace Prometheus

/-- prometheus.ValueType, restricted to the two kinds the exporter uses. -/
inductive ValueType where
  | GaugeValue
  | CounterValue
deriving DecidableEq

/-- prometheus.Desc: fully-qualified metric name, help string and the ordered
variable label names. -/
structure Desc where
  fqName : String
  help : String
  variableLabels : List String
deriving DecidableEq

/-- prometheus.BuildFQName: joins the non-empty parts with underscores. -/
def BuildFQName (ns subsystem nm : String) : String :=
  if nm = "" then ""
  else if ns ≠ "" ∧ subsystem ≠ "" then ns ++ "_" ++ subsystem ++ "_" ++ nm
  else if ns ≠ "" then ns ++ "_" ++ nm
  else if subsystem ≠ "" then subsystem ++ "_" ++ nm
  else nm

/-- prometheus.NewDesc (the exporter never passes const labels). -/
def NewDesc (fqName help : String) (variableLabels : List String) : Desc :=
  ⟨fqName, help, variableLabels⟩

/-- One const metric as produced by prometheus.MustNewConstMetric and sent on
the collect channel: descriptor, value type, value, ordered label values. -/
structure Observation where
  desc : Desc
  valueType : ValueType
  value : ℚ
  labelValues : List String
deriving DecidableEq

/-- prometheus.MustNewConstMetric (label values passed variadically in Go). -/
def MustNewConstMetric (d : Desc) (t : ValueType) (v : ℚ)
    (labelValues : List String) : Observation :=
  ⟨d, t, v, labelValues⟩

end Prometheus

open Prometheus

/-! ## Model of encoding/json.Unmarshal for the response shapes

Go's object decoding matches an incoming key against a struct field's json
tag first exactly, then case-insensitively; with several matching incoming
keys the last one processed wins.  Unknown keys are ignored.  An absent key,
or JSON `null`, leaves the (zero-valued) field unchanged.  A JSON value of
the wrong shape for the field is a decode error. -/

namespace GoJson

/-- Case folding of a key at the character level. -/
def foldKey (s : String) : List Char := s.toList.map Char.toLower

/-- Whether incoming key `k` is delivered to the field tagged `target`. -/
def keyMatches (k target : String) : Bool :=
  k == target || foldKey k == foldKey target

/-- The JSON value delivered to the field tagged `target`, if any: scanning
the object's keys in order, the last matching one wins. -/
def lookupField (fields : List (String × Json)) (target : String) : Option Json :=
  fields.foldl (fun acc kv => if keyMatches kv.fst target then some kv.snd else acc) none

/-- Decode a JSON value into a Go `string` field (zero value ""). -/
def asString : Option Json → Option String
  | none => some ""
  | some (Json.str s) => some s
  | some Json.null => some ""
  | some _ => none

/-- Decode a JSON value into a Go `int` field (zero value 0): the number must
be integral. -/
def asInt : Option Json → Option Int
  | none => some 0
  | some (Json.num q) => if q.den = 1 then some q.num else none
  | some Json.null => some 0
  | some _ => none

/-- Decode a JSON value into a Go `float64` field (zero value 0). -/
def asFloat : Option Json → Option ℚ
  | none => some 0
  | some (Json.num q) => some q
  | some Json.null => some 0
  | some _ => none

/-- Decode a JSON value into a Go `bool` field (zero value false). -/
def asBool : Option Json → Option Bool
  | none => some false
  | some (Json.bool b) => some b
  | some Json.null => some false
  | some _ => none

/-- Decode a JSON value into a Go `map[string]interface{}` field (zero value
nil): any object or null is accepted and kept raw. -/
def asRawMap : Option Json → Option (List (String × Json))
  | none => some []
  | some (Json.obj fs) => some fs
  | some Json.null => some []
  | some _ => none

/-- Decode a JSON value into a Go slice field with element decoder `elem`
(zero value nil). -/
def asList {α : Type} (elem : Json → Option α) : Option Json → Option (List α)
  | none => some []
  | some (Json.arr xs) => xs.mapM elem
  | some Json.null => some []
  | some _ => none

end GoJson

/-! ## Domain record types of collector/cassandra.go

The `node`, `datacentre`, `datacentres`, `metrics`, `metric` and `metricValue`
struct declarations are textually identical in both collector variants, so
they are embedded once.  The `cluster` struct differs between the variants
(`int` vs `float64` counts) and is declared in each variant's namespace. -/

/-- collector struct `node` (json tags: id, size, rack, publicAddress,
privateAddress, nodeStatus, sparkMaster, sparkJobserver, zeppelin). -/
structure node where
  ID : String
  Size : String
  Rack : String
  PublicIP : String
  PrivateIP : String
  Status : String
  SparkMaster : Bool
  SparkJobserver : Bool
  Zeppelin : Bool
deriving DecidableEq

/-- collector struct `datacentre` (json tags: id, name, provider, cdcNetwork,
nodes).  `CDCNetwork` is Go `map[string]interface{}`, kept as raw JSON. -/
structure datacentre where
  ID : String
  Name : String
  Provider : String
  CDCNetwork : List (String × Json)
  Nodes : List node

/-- collector struct `datacentres` (json tag: dataCentres). -/
structure datacentres where
  Dcs : List datacentre

/-- collector struct `metricValue` (json tags: value, time). -/
structure metricValue where
  Value : String
  Time : String
deriving DecidableEq

/-- collector struct `metric` (json tags: metric, type, unit, values).
The Go field `Type` is spelled `Type'` here because `Type` is reserved. -/
structure metric where
  Name : String
  Type' : String
  Unit : String
  Values : List metricValue
deriving DecidableEq

/-- collector struct `metrics` (json tag: payload). -/
structure metrics where
  Metrics : List metric
deriving DecidableEq

namespace GoJson

/-- json.Unmarshal of one JSON value into a fresh `node`. -/
def decodeNode (j : Json) : Option node :=
  match j with
  | Json.obj fs => do
    let id ← asString (lookupField fs "id")
    let size ← asString (lookupField fs "size")
    let rack ← asString (lookupField fs "rack")
    let publicIP ← asString (lookupField fs "publicAddress")
    let privateIP ← asString (lookupField fs "privateAddress")
    let status ← asString (lookupField fs "nodeStatus")
    let sparkMaster ← asBool (lookupField fs "sparkMaster")
    let sparkJobserver ← asBool (lookupField fs "sparkJobserver")
    let zeppelin ← asBool (lookupField fs "zeppelin")
    some ⟨id, size, rack, publicIP, privateIP, status, sparkMaster, sparkJobserver, zeppelin⟩
  | Json.null => some ⟨"", "", "", "", "", "", false, false, false⟩
  | _ => none

/-- json.Unmarshal of one JSON value into a fresh `datacentre`. -/
def decodeDatacentre (j : Json) : Option datacentre :=
  match j with
  | Json.obj fs => do
    let id ← asString (lookupField fs "id")
    let nm ← asString (lookupField fs "name")
    let provider ← asString (lookupField fs "provider")
    let cdcNetwork ← asRawMap (lookupField fs "cdcNetwork")
    let nodes ← asList decodeNode (lookupField fs "nodes")
    some ⟨id, nm, provider, cdcNetwork, nodes⟩
  | Json.null => some ⟨"", "", "", [], []⟩
  | _ => none

/-- json.Unmarshal of a raw cluster-status response into a fresh
`datacentres` value (the decode target of `GetClusterStatus` responses).
`none` input models bytes that are not valid JSON (including nil). -/
def decodeDatacentres (body : Option Json) : Option datacentres :=
  match body with
  | none => none
  | some (Json.obj fs) => (asList decodeDatacentre (lookupField fs "dataCentres")).map datacentres.mk
  | some Json.null => some ⟨[]⟩
  | some _ => none

/-- json.Unmarshal of one JSON value into a fresh `metricValue`. -/
def decodeMetricValue (j : Json) : Option metricValue :=
  match j with
  | Json.obj fs => do
    let v ← asString (lookupField fs "value")
    let t ← asString (lookupField fs "time")
    some ⟨v, t⟩
  | Json.null => some ⟨"", ""⟩
  | _ => none

/-- json.Unmarshal of one JSON value into a fresh `metric`. -/
def decodeMetric (j : Json) : Option metric :=
  match j with
  | Json.obj fs => do
    let nm ← asString (lookupField fs "metric")
    let ty ← asString (lookupField fs "type")
    let unit ← asString (lookupField fs "unit")
    let values ← asList decodeMetricValue (lookupField fs "values")
    some ⟨nm, ty, unit, values⟩
  | Json.null => some ⟨"", "", "", []⟩
  | _ => none

/-- json.Unmarshal of one JSON value into a fresh `metrics`. -/
def decodeMetricsElem (j : Json) : Option metrics :=
  match j with
  | Json.obj fs => (asList decodeMetric (lookupField fs "payload")).map metrics.mk
  | Json.null => some ⟨[]⟩
  | _ => none

/-- json.Unmarshal of a raw node-metrics response into a fresh `[]metrics`
(the decode target of `GetNodeMetric` responses). -/
def decodeMetricsList (body : Option Json) : Option (List metrics) :=
  match body with
  | none => none
  | some (Json.arr xs) => xs.mapM decodeMetricsElem
  | some Json.null => some []
  | some _ => none

end GoJson

/-! ## Variant A: the collector of src/collector/cassandra.go

This is the current collector: per-cluster goroutines, full identity label
tuples on every node observation, raw (microsecond) client-request values. -/

namespace VariantA

/-- const namespace = "cassandra" (spelled with an apostrophe: `namespace` is
reserved in Lean). -/
def namespace' : String := "cassandra"

/-- collector struct `cluster` (json tags: id, name, nodeCount,
runningNodeCount, derivedStatus); counts are Go `int` here. -/
structure cluster where
  ID : String
  Name : String
  NodeCount : Int
  RunningNodeCount : Int
  DerivedStatus : String
deriving DecidableEq

/-- json.Unmarshal of one JSON value into a fresh variant-A `cluster`. -/
def decodeCluster (j : Json) : Option cluster :=
  match j with
  | Json.obj fs => do
    let id ← GoJson.asString (GoJson.lookupField fs "id")
    let nm ← GoJson.asString (GoJson.lookupField fs "name")
    let nodeCount ← GoJson.asInt (GoJson.lookupField fs "nodeCount")
    let runningNodeCount ← GoJson.asInt (GoJson.lookupField fs "runningNodeCount")
    let derivedStatus ← GoJson.asString (GoJson.lookupField fs "derivedStatus")
    some ⟨id, nm, nodeCount, runningNodeCount, derivedStatus⟩
  | Json.null => some ⟨"", "", 0, 0, ""⟩
  | _ => none

/-- json.Unmarshal of a raw cluster-list response into a fresh `[]cluster`. -/
def decodeClusters (body : Option Json) : Option (List cluster) :=
  match body with
  | none => none
  | some (Json.arr xs) => xs.mapM decodeCluster
  | some Json.null => some []
  | some _ => none

/-- var allNodeMetricsQuery (n::nodeStatus is commented out in the source). -/
def allNodeMetricsQuery : List String :=
  ["n::cpuUtilization", "n::diskUtilization", "n::cassandraReads",
   "n::cassandraWrites", "n::compactions", "n::repairs",
   "n::clientRequestRead", "n::clientRequestWrite"]

/-- Label names shared by all cluster-level descriptors. -/
def clusterLabelNames : List String := ["clusterId", "clusterName"]

/-- Label names shared by all node-level descriptors in this variant. -/
def nodeLabelNames : List String :=
  ["clusterId", "clusterName", "nodeId", "nodePublicIp", "nodePrivateIp", "rack"]

def clusterRunning : Desc :=
  NewDesc (BuildFQName namespace' "cluster" "running")
    "Whether or not the cassandra cluster is running." clusterLabelNames

def clusterNodesCount : Desc :=
  NewDesc (BuildFQName namespace' "cluster" "nodes_count")
    "Number of nodes the cluster is composed" clusterLabelNames

def clusterNodesRunningCount : Desc :=
  NewDesc (BuildFQName namespace' "cluster" "nodes_running_count")
    "Number of nodes running in the cluster" clusterLabelNames

def nodeRunning : Desc :=
  NewDesc (BuildFQName namespace' "node" "running")
    "Whether or not a single node is running" nodeLabelNames

def nodeCPUUtilizationPercentage : Desc :=
  NewDesc (BuildFQName namespace' "node" "cpu_utilization_percentage")
    "Current CPU utilisation as a percentage of total available. Maximum value is 100%, regardless of the number of cores on the node."
    nodeLabelNames

def nodeDiskUtilizationPercentage : Desc :=
  NewDesc (BuildFQName namespace' "node" "disk_utilization_percentage")
    "Total disk space utilisation, by Cassandra, as a percentage of total available."
    nodeLabelNames

def nodeCassandraReadsPerSecond : Desc :=
  NewDesc (BuildFQName namespace' "node" "reads_per_second")
    "Reads per second by Cassandra." nodeLabelNames

def nodeCassandraWritesPerSecond : Desc :=
  NewDesc (BuildFQName namespace' "node" "writes_per_second")
    "Writes per second by Cassandra." nodeLabelNames

def nodeCassandraCompactions : Desc :=
  NewDesc (BuildFQName namespace' "node" "compactions")
    "Number of pending compactions." nodeLabelNames

def nodeCassandraRepairsPending : Desc :=
  NewDesc (BuildFQName namespace' "node" "repairs_pending")
    "Number of pending repair tasks." nodeLabelNames

def nodeCassandraRepairsActive : Desc :=
  NewDesc (BuildFQName namespace' "node" "repairs_active")
    "Number of pending repair tasks." nodeLabelNames

def nodeClientRequestReadLatency : Desc :=
  NewDesc (BuildFQName namespace' "node" "client_request_read_latency")
    "Average latency (us/1) per client read request (i.e. the period from when a node receives a client request, gathers the records and response to the client)."
    nodeLabelNames

def nodeClientRequestWriteLatency : Desc :=
  NewDesc (BuildFQName namespace' "node" "client_request_write_latency")
    "Average latency (us/1) per client write request (i.e. the period from when a node receives a client request, gathers the records and response to the client)."
    nodeLabelNames

def nodeClientRequestReadPercentile : Desc :=
  NewDesc (BuildFQName namespace' "node" "client_request_read_percentile")
    "95th percentile (us) distribution per client read request (i.e. the period from when a node receives a client request, gathers the records and response to the client)."
    nodeLabelNames

def nodeClientRequestWritePercentile : Desc :=
  NewDesc (BuildFQName namespace' "node" "client_request_write_percentile")
    "95th percentile (us) distribution per client write request (i.e. the period from when a node receives a client request, gathers the records and response to the client)."
    nodeLabelNames

/-- func clusterHealthCollector: the observations it sends on the channel,
in order. -/
def clusterHealthCollector (c : cluster) : List Observation :=
  (if c.DerivedStatus = "RUNNING" then
    [MustNewConstMetric clusterRunning ValueType.GaugeValue 1 [c.ID, c.Name]]
  else
    [MustNewConstMetric clusterRunning ValueType.GaugeValue 0 [c.ID, c.Name]])
  ++ [MustNewConstMetric clusterNodesCount ValueType.GaugeValue (c.NodeCount : ℚ) [c.ID, c.Name],
      MustNewConstMetric clusterNodesRunningCount ValueType.GaugeValue (c.RunningNodeCount : ℚ) [c.ID, c.Name]]

/-- func nodeHealthCollector: the observations it sends on the channel. -/
def nodeHealthCollector (c : cluster) (n : node) : List Observation :=
  if n.Status = "RUNNING" then
    [MustNewConstMetric nodeRunning ValueType.GaugeValue 1
      [c.ID, c.Name, n.ID, n.PublicIP, n.PrivateIP, n.Rack]]
  else
    [MustNewConstMetric nodeRunning ValueType.GaugeValue 0
      [c.ID, c.Name, n.ID, n.PublicIP, n.PrivateIP, n.Rack]]

/-- The switch statement of func nodeMetricsCollector: the observations sent
for one decoded metric record, given the already-parsed value.  A Go switch
on strings is a sequence of equality tests without fallthrough. -/
def metricSwitch (c : cluster) (n : node) (m : metric) (value : ℚ) : List Observation :=
  if m.Name = "cpuUtilization" then
    [MustNewConstMetric nodeCPUUtilizationPercentage ValueType.GaugeValue value
      [c.ID, c.Name, n.ID, n.PublicIP, n.PrivateIP, n.Rack]]
  else if m.Name = "diskUtilization" then
    [MustNewConstMetric nodeDiskUtilizationPercentage ValueType.GaugeValue value
      [c.ID, c.Name, n.ID, n.PublicIP, n.PrivateIP, n.Rack]]
  else if m.Name = "cassandraReads" then
    [MustNewConstMetric nodeCassandraReadsPerSecond ValueType.GaugeValue value
      [c.ID, c.Name, n.ID, n.PublicIP, n.PrivateIP, n.Rack]]
  else if m.Name = "cassandraWrites" then
    [MustNewConstMetric nodeCassandraWritesPerSecond ValueType.GaugeValue value
      [c.ID, c.Name, n.ID, n.PublicIP, n.PrivateIP, n.Rack]]
  else if m.Name = "compactions" then
    [MustNewConstMetric nodeCassandraCompactions ValueType.GaugeValue value
      [c.ID, c.Name, n.ID, n.PublicIP, n.PrivateIP, n.Rack]]
  else if m.Name = "repairs" then
    (if m.Type' = "pendingtasks" then
      [MustNewConstMetric nodeCassandraRepairsPending ValueType.GaugeValue value
        [c.ID, c.Name, n.ID, n.PublicIP, n.PrivateIP, n.Rack]]
    else if m.Type' = "activetasks" then
      [MustNewConstMetric nodeCassandraRepairsActive ValueType.GaugeValue value
        [c.ID, c.Name, n.ID, n.PublicIP, n.PrivateIP, n.Rack]]
    else [])  -- log.Warnf: unknown metric type, nothing sent
  else if m.Name = "clientRequestRead" then
    (if m.Type' = "latency_per_operation" then
      [MustNewConstMetric nodeClientRequestReadLatency ValueType.GaugeValue value
        [c.ID, c.Name, n.ID, n.PublicIP, n.PrivateIP, n.Rack]]
    else if m.Type' = "95thPercentile" then
      [MustNewConstMetric nodeClientRequestReadPercentile ValueType.GaugeValue value
        [c.ID, c.Name, n.ID, n.PublicIP, n.PrivateIP, n.Rack]]
    else [])
  else if m.Name = "clientRequestWrite" then
    (if m.Type' = "latency_per_operation" then
      [MustNewConstMetric nodeClientRequestWriteLatency ValueType.GaugeValue value
        [c.ID, c.Name, n.ID, n.PublicIP, n.PrivateIP, n.Rack]]
    else if m.Type' = "95thPercentile" then
      [MustNewConstMetric nodeClientRequestWritePercentile ValueType.GaugeValue value
        [c.ID, c.Name, n.ID, n.PublicIP, n.PrivateIP, n.Rack]]
    else [])
  else []  -- no case matches: nothing sent

/-- One iteration of nodeMetricsCollector's inner loop:
`value, err := strconv.ParseFloat(m.Values[0].Value, 64)` substitutes 0 on a
parse error; the unguarded index `m.Values[0]` panics on an empty slice. -/
def collectOneMetric (c : cluster) (n : node) (m : metric) : RunResult (List Observation) :=
  match m.Values with
  | [] => RunResult.crashed
  | v :: _ =>
    let value : ℚ :=
      match GoStrconv.ParseFloat v.Value with
      | none => 0  -- log.Errorf, then value = 0
      | some q => q
    RunResult.ok (metricSwitch c n m value)

/-- The inner `for _, m := range mc.Metrics` loop of nodeMetricsCollector. -/
def metricsLoop (c : cluster) (n : node) : List metric → RunResult (List Observation)
  | [] => RunResult.ok []
  | m :: rest =>
    match collectOneMetric c n m with
    | RunResult.crashed => RunResult.crashed
    | RunResult.ok out =>
      match metricsLoop c n rest with
      | RunResult.crashed => RunResult.crashed
      | RunResult.ok tail => RunResult.ok (out ++ tail)

/-- func nodeMetricsCollector: the outer `for _, mc := range ms` loop. -/
def nodeMetricsCollector (c : cluster) (n : node) : List metrics → RunResult (List Observation)
  | [] => RunResult.ok []
  | mc :: rest =>
    match metricsLoop c n mc.Metrics with
    | RunResult.crashed => RunResult.crashed
    | RunResult.ok out =>
      match nodeMetricsCollector c n rest with
      | RunResult.crashed => RunResult.crashed
      | RunResult.ok tail => RunResult.ok (out ++ tail)

/-- The upstream API as seen by one scrape: the raw (parsed-or-not) response
of each client call the Collect method can make.  `GetNodeMetric` takes the
node id and the metrics query string. -/
structure Upstream where
  GetClusters : Option Json
  GetClusterStatus : String → Option Json
  GetNodeMetric : String → String → Option Json

/-- The `for _, dc := range dcs.Dcs { for _, n := range dc.Nodes { ... } }`
body of the per-cluster goroutine, with the node sequence flattened (the
early `return` on a node-metrics decode error exits the whole goroutine, so
it aborts both loops at once; observations already sent are kept). -/
def nodesLoop (up : Upstream) (c : cluster) : List node → RunResult (List Observation)
  | [] => RunResult.ok []
  | n :: rest =>
    let h := nodeHealthCollector c n
    match GoJson.decodeMetricsList
        (up.GetNodeMetric n.ID (String.intercalate "," allNodeMetricsQuery)) with
    | none => RunResult.ok h  -- log.Errorf("Could not gather any metric"), return
    | some ms =>
      match nodeMetricsCollector c n ms with
      | RunResult.crashed => RunResult.crashed
      | RunResult.ok out =>
        match nodesLoop up c rest with
        | RunResult.crashed => RunResult.crashed
        | RunResult.ok tail => RunResult.ok (h ++ out ++ tail)

/-- The body of the per-cluster goroutine spawned by Collect: cluster health
first, then the cluster-status lookup, then the node loops. -/
def collectClusterWorker (up : Upstream) (c : cluster) : RunResult (List Observation) :=
  let base := clusterHealthCollector c
  match GoJson.decodeDatacentres (up.GetClusterStatus c.ID) with
  | none => RunResult.ok base  -- log.Errorf("Couldn't get cluster ... datacentres"), return
  | some dcs =>
    match nodesLoop up c (dcs.Dcs.map datacentre.Nodes).flatten with
    | RunResult.crashed => RunResult.crashed
    | RunResult.ok tail => RunResult.ok (base ++ tail)

/-- The `for _, c := range clusters` fan-out, sequentialized in spawn order.
A crash in any goroutine kills the process. -/
def clustersLoop (up : Upstream) : List cluster → RunResult (List Observation)
  | [] => RunResult.ok []
  | c :: rest =>
    match collectClusterWorker up c with
    | RunResult.crashed => RunResult.crashed
    | RunResult.ok out =>
      match clustersLoop up rest with
      | RunResult.crashed => RunResult.crashed
      | RunResult.ok tail => RunResult.ok (out ++ tail)

/-- func (e *Exporter) Collect: the full scrape.  A cluster-list decode
failure logs and returns with nothing sent. -/
def Collect (up : Upstream) : RunResult (List Observation) :=
  match decodeClusters up.GetClusters with
  | none => RunResult.ok []  -- log.Errorf("Couldn't get clusters"), return
  | some clusters => clustersLoop up clusters

end VariantA

/-! ## Variant B: the superseded collector kept in the repository
(src/unnamed/part_001)

Same package and symbols as variant A, an earlier revision: it adds
cluster-info/node-info observations, carries the full identity tuple only on
node-info (other node observations are labelled by nodeId alone), and
converts the four client-request metrics from microseconds to seconds. -/

namespace VariantB

/-- const namespace = "cassandra". -/
def namespace' : String := "cassandra"

/-- const usTosecondsFactor = 1e-06 (exactly 1/1000000 as a decimal literal;
spelled with mkRat because this file models float64 by ℚ). -/
def usTosecondsFactor : ℚ := mkRat 1 1000000

/-- collector struct `cluster` of this variant: the counts are float64. -/
structure cluster where
  ID : String
  Name : String
  NodeCount : ℚ
  RunningNodeCount : ℚ
  DerivedStatus : String
deriving DecidableEq

/-- Label names of the cluster-info and node-info descriptors. -/
def infoClusterLabelNames : List String := ["clusterId", "clusterName"]

/-- Label names of the node-info descriptor. -/
def nodeInfoLabelNames : List String :=
  ["clusterId", "clusterName", "nodeId", "nodePublicIp", "nodePrivateIp", "rack"]

def clusterInfo : Desc :=
  NewDesc (BuildFQName namespace' "cluster" "info")
    "A mapping between the clusterId and clusterName" infoClusterLabelNames

def clusterRunning : Desc :=
  NewDesc (BuildFQName namespace' "cluster" "running")
    "Whether or not the cassandra cluster is running." ["clusterId"]

def clusterNodesCount : Desc :=
  NewDesc (BuildFQName namespace' "cluster" "nodes")
    "Number of nodes the cluster is composed" ["clusterId"]

def clusterNodesRunningCount : Desc :=
  NewDesc (BuildFQName namespace' "cluster" "nodes_running")
    "Number of nodes running in the cluster" ["clusterId"]

def nodeInfo : Desc :=
  NewDesc (BuildFQName namespace' "node" "info")
    "A mapping between nodeId with its IPs, racks and cluster" nodeInfoLabelNames

def nodeRunning : Desc :=
  NewDesc (BuildFQName namespace' "node" "running")
    "Whether or not a single node is running" ["nodeId"]

def nodeCPUUtilizationPercentage : Desc :=
  NewDesc (BuildFQName namespace' "node" "cpu_utilization_percentage")
    "Current CPU utilisation as a percentage of total available. Maximum value is 100%, regardless of the number of cores on the node."
    ["nodeId"]

def nodeDiskUtilizationPercentage : Desc :=
  NewDesc (BuildFQName namespace' "node" "disk_utilization_percentage")
    "Total disk space utilisation, by Cassandra, as a percentage of total available."
    ["nodeId"]

def nodeCassandraReadsPerSecond : Desc :=
  NewDesc (BuildFQName namespace' "node" "reads_per_second")
    "Reads per second by Cassandra." ["nodeId"]

def nodeCassandraWritesPerSecond : Desc :=
  NewDesc (BuildFQName namespace' "node" "writes_per_second")
    "Writes per second by Cassandra." ["nodeId"]

def nodeCassandraCompactions : Desc :=
  NewDesc (BuildFQName namespace' "node" "compactions")
    "Number of pending compactions." ["nodeId"]

def nodeCassandraRepairsPending : Desc :=
  NewDesc (BuildFQName namespace' "node" "repairs_pending")
    "Number of pending repair tasks." ["nodeId"]

def nodeCassandraRepairsActive : Desc :=
  NewDesc (BuildFQName namespace' "node" "repairs_active")
    "Number of pending repair tasks." ["nodeId"]

def nodeClientRequestReadLatency : Desc :=
  NewDesc (BuildFQName namespace' "node" "client_request_read_latency")
    "Average latency (s/1) per client read request (i.e. the period from when a node receives a client request, gathers the records and response to the client)."
    ["nodeId"]

def nodeClientRequestWriteLatency : Desc :=
  NewDesc (BuildFQName namespace' "node" "client_request_write_latency")
    "Average latency (s/1) per client write request (i.e. the period from when a node receives a client request, gathers the records and response to the client)."
    ["nodeId"]

def nodeClientRequestReadPercentile : Desc :=
  NewDesc (BuildFQName namespace' "node" "client_request_read_percentile95")
    "95th percentile (s) distribution per client read request (i.e. the period from when a node receives a client request, gathers the records and response to the client)."
    ["nodeId"]

def nodeClientRequestWritePercentile : Desc :=
  NewDesc (BuildFQName namespace' "node" "client_request_write_percentile95")
    "95th percentile (s) distribution per client write request (i.e. the period from when a node receives a client request, gathers the records and response to the client)."
    ["nodeId"]

/-- func clusterInfoCollector. -/
def clusterInfoCollector (c : cluster) : List Observation :=
  [MustNewConstMetric clusterInfo ValueType.CounterValue 1 [c.ID, c.Name]]

/-- func clusterHealthCollector of this variant. -/
def clusterHealthCollector (c : cluster) : List Observation :=
  (if c.DerivedStatus = "RUNNING" then
    [MustNewConstMetric clusterRunning ValueType.GaugeValue 1 [c.ID]]
  else
    [MustNewConstMetric clusterRunning ValueType.GaugeValue 0 [c.ID]])
  ++ [MustNewConstMetric clusterNodesCount ValueType.GaugeValue c.NodeCount [c.ID],
      MustNewConstMetric clusterNodesRunningCount ValueType.GaugeValue c.RunningNodeCount [c.ID]]

/-- func nodeInfoCollector. -/
def nodeInfoCollector (c : cluster) (n : node) : List Observation :=
  [MustNewConstMetric nodeInfo ValueType.CounterValue 1
    [c.ID, c.Name, n.ID, n.PublicIP, n.PrivateIP, n.Rack]]

/-- func nodeHealthCollector of this variant: labelled by nodeId alone. -/
def nodeHealthCollector (c : cluster) (n : node) : List Observation :=
  if n.Status = "RUNNING" then
    [MustNewConstMetric nodeRunning ValueType.GaugeValue 1 [n.ID]]
  else
    [MustNewConstMetric nodeRunning ValueType.GaugeValue 0 [n.ID]]

/-- The switch statement of this variant's nodeMetricsCollector: identical
case structure to variant A, but node observations carry only the nodeId
label and the four client-request metrics are multiplied by
usTosecondsFactor. -/
def metricSwitch (c : cluster) (n : node) (m : metric) (value : ℚ) : List Observation :=
  if m.Name = "cpuUtilization" then
    [MustNewConstMetric nodeCPUUtilizationPercentage ValueType.GaugeValue value [n.ID]]
  else if m.Name = "diskUtilization" then
    [MustNewConstMetric nodeDiskUtilizationPercentage ValueType.GaugeValue value [n.ID]]
  else if m.Name = "cassandraReads" then
    [MustNewConstMetric nodeCassandraReadsPerSecond ValueType.GaugeValue value [n.ID]]
  else if m.Name = "cassandraWrites" then
    [MustNewConstMetric nodeCassandraWritesPerSecond ValueType.GaugeValue value [n.ID]]
  else if m.Name = "compactions" then
    [MustNewConstMetric nodeCassandraCompactions ValueType.GaugeValue value [n.ID]]
  else if m.Name = "repairs" then
    (if m.Type' = "pendingtasks" then
      [MustNewConstMetric nodeCassandraRepairsPending ValueType.GaugeValue value [n.ID]]
    else if m.Type' = "activetasks" then
      [MustNewConstMetric nodeCassandraRepairsActive ValueType.GaugeValue value [n.ID]]
    else [])
  else if m.Name = "clientRequestRead" then
    (if m.Type' = "latency_per_operation" then
      [MustNewConstMetric nodeClientRequestReadLatency ValueType.GaugeValue
        (value * usTosecondsFactor) [n.ID]]
    else if m.Type' = "95thPercentile" then
      [MustNewConstMetric nodeClientRequestReadPercentile ValueType.GaugeValue
        (value * usTosecondsFactor) [n.ID]]
    else [])
  else if m.Name = "clientRequestWrite" then
    (if m.Type' = "latency_per_operation" then
      [MustNewConstMetric nodeClientRequestWriteLatency ValueType.GaugeValue
        (value * usTosecondsFactor) [n.ID]]
    else if m.Type' = "95thPercentile" then
      [MustNewConstMetric nodeClientRequestWritePercentile ValueType.GaugeValue
        (value * usTosecondsFactor) [n.ID]]
    else [])
  else []

/-- One iteration of this variant's nodeMetricsCollector inner loop (same
parse-or-zero and unguarded `m.Values[0]` as variant A). -/
def collectOneMetric (c : cluster) (n : node) (m : metric) : RunResult (List Observation) :=
  match m.Values with
  | [] => RunResult.crashed
  | v :: _ =>
    let value : ℚ :=
      match GoStrconv.ParseFloat v.Value with
      | none => 0
      | some q => q
    RunResult.ok (metricSwitch c n m value)

end VariantB

/-! ## The upstream API client (src/instaclustr/client.go)

`sendRequest` sets basic auth, performs the request, and reads the body.  It
inspects only the two errors (transport, body read) — the HTTP status code of
a completed response is never examined. -/

namespace Instaclustr

/-- The observable outcome of one `c.client.Do(req)` round trip:
either a transport error, or a completed response with a status code and a
body whose read may itself fail (`none`). -/
inductive HttpResult where
  | transportError
  | response (statusCode : Nat) (body : Option String)

/-- The network: what each request URL comes back with.  Each client
operation builds exactly one request and consults the network exactly once —
there is no retry anywhere in the client. -/
structure Transport where
  do' : String → HttpResult

/-- struct instaclustrClient (the `*http.Client` handle is the Transport). -/
structure instaclustrClient where
  url : String
  user : String
  APIKey : String
  APIEndpoint : String
  APIVersion : String

/-- func (c instaclustrClient) sendRequest: transport error → error; body
read error → error; otherwise the body bytes are returned, whatever the
status code was. -/
def sendRequest (r : HttpResult) : Option String :=
  match r with
  | HttpResult.transportError => none  -- log.Errorf("Error sending request"), return nil, err
  | HttpResult.response _statusCode body =>
    match body with
    | none => none  -- log.Errorf("Error reading response body"), return nil, err
    | some data => some data

/-- func (c ProvisioningClient) GetClusters: one GET against
`{url}/{endpoint}/{version}`; on a sendRequest error it returns nil
(modelled none). -/
def GetClusters (c : instaclustrClient) (t : Transport) : Option String :=
  let requestURL := c.url ++ "/" ++ c.APIEndpoint ++ "/" ++ c.APIVersion
  match sendRequest (t.do' requestURL) with
  | none => none  -- log.Errorf("Error querying ..."), return nil
  | some data => some data

/-- func (c ProvisioningClient) GetClusterStatus: one GET against
`{url}/{endpoint}/{version}/{clusterID}`. -/
def GetClusterStatus (c : instaclustrClient) (t : Transport) (clusterID : String) : Option String :=
  let requestURL := c.url ++ "/" ++ c.APIEndpoint ++ "/" ++ c.APIVersion ++ "/" ++ clusterID
  match sendRequest (t.do' requestURL) with
  | none => none
  | some data => some data

/-- func (c MonitoringClient) GetNodeMetric: one GET against
`{url}/{endpoint}/{version}/nodes/{nodeID}?metrics={metric}`. -/
def GetNodeMetric (c : instaclustrClient) (t : Transport) (nodeID metricQ : String) : Option String :=
  let requestURL := c.url ++ "/" ++ c.APIEndpoint ++ "/" ++ c.APIVersion
    ++ "/nodes/" ++ nodeID ++ "?metrics=" ++ metricQ
  match sendRequest (t.do' requestURL) with
  | none => none
  | some data => some data

/-- The upstream 404 JSON error body served by the provisioning API for an
unknown cluster (from the mock server and client tests). -/
def notFoundBody : String :=
  "\x7b\"link\":\"https://www.w3.org/Protocols/rfc2616/rfc2616-sec10.html\",\"message\":\"HTTP 404 Not Found\",\"status\":404\x7d"

end Instaclustr

/-! ## Concrete test fixtures

Small concrete upstream responses, in the shape of the repository's mock
server data, used to instantiate hypotheses of the theorems below. -/

namespace Fixtures

/-- A cluster-list element as served by the provisioning API. -/
def clusterJson (id nm : String) : Json :=
  Json.obj [("id", Json.str id), ("name", Json.str nm),
            ("nodeCount", Json.num 1), ("runningNodeCount", Json.num 1),
            ("derivedStatus", Json.str "RUNNING")]

/-- The decoded form of `clusterJson id nm` (variant A). -/
def clusterRec (id nm : String) : VariantA.cluster := ⟨id, nm, 1, 1, "RUNNING"⟩

def cl1 : VariantA.cluster := clusterRec "cluster-1" "ONE"
def cl2 : VariantA.cluster := clusterRec "cluster-2" "TWO"

/-- A node object as served inside a cluster-status response. -/
def nodeJson (id : String) : Json :=
  Json.obj [("id", Json.str id), ("size", Json.str "t2"),
            ("rack", Json.str "rack-1"), ("publicAddress", Json.str "1.2.3.4"),
            ("privateAddress", Json.str "10.0.0.1"), ("nodeStatus", Json.str "RUNNING"),
            ("sparkMaster", Json.bool false), ("sparkJobserver", Json.bool false),
            ("zeppelin", Json.bool false)]

/-- The decoded form of `nodeJson id`. -/
def nodeRec (id : String) : node :=
  ⟨id, "t2", "rack-1", "1.2.3.4", "10.0.0.1", "RUNNING", false, false, false⟩

/-- A cluster-status response holding one datacentre with the given nodes. -/
def statusJson (nodes : List Json) : Json :=
  Json.obj [("dataCentres", Json.arr
    [Json.obj [("id", Json.str "dc-1"), ("name", Json.str "DC_ONE"),
               ("provider", Json.str "AWS_VPC"), ("cdcNetwork", Json.obj []),
               ("nodes", Json.arr nodes)]])]

/-- One metric record of a node-metrics payload. -/
def metricJson (nm ty unit : String) (values : List Json) : Json :=
  Json.obj [("metric", Json.str nm), ("type", Json.str ty),
            ("unit", Json.str unit), ("values", Json.arr values)]

/-- One timestamped value inside a metric record. -/
def valueJson (v : String) : Json :=
  Json.obj [("time", Json.str "2017-07-03T09:37:04.000Z"), ("value", Json.str v)]

/-- A node-metrics response: one element with the given payload records. -/
def payloadJson (nodeId : String) (records : List Json) : Json :=
  Json.arr [Json.obj [("id", Json.str nodeId), ("payload", Json.arr records)]]

/-- The upstream 404 JSON error body (`{"status":404,...}`) served instead of
a cluster-status object for an unknown cluster id. -/
def json404 : Json :=
  Json.obj [("link", Json.str "https://www.w3.org/Protocols/rfc2616/rfc2616-sec10.html"),
            ("message", Json.str "HTTP 404 Not Found"), ("status", Json.num 404)]

/-- Scrape fixture for claim C2: two clusters; cluster-1's status response is
malformed (fails to decode), cluster-2 is healthy with one node reporting one
cpuUtilization sample of "2.5". -/
def up2 : VariantA.Upstream where
  GetClusters := some (Json.arr [clusterJson "cluster-1" "ONE", clusterJson "cluster-2" "TWO"])
  GetClusterStatus := fun id =>
    if id = "cluster-2" then some (statusJson [nodeJson "node-2"]) else none
  GetNodeMetric := fun id _ =>
    if id = "node-2" then some (payloadJson "node-2" [metricJson "cpuUtilization" "percentage" "1" [valueJson "2.5"]]) else none

/-- The node-running observation of cluster-2's node in fixture `up2`. -/
def node2RunningObs : Observation :=
  MustNewConstMetric VariantA.nodeRunning ValueType.GaugeValue 1
    ["cluster-2", "TWO", "node-2", "1.2.3.4", "10.0.0.1", "rack-1"]

/-- What the cluster-2 worker of fixture `up2` emits. -/
def obsCluster2 : List Observation :=
  VariantA.clusterHealthCollector cl2
  ++ VariantA.nodeHealthCollector cl2 (nodeRec "node-2")
  ++ [MustNewConstMetric VariantA.nodeCPUUtilizationPercentage ValueType.GaugeValue (mkRat 5 2)
       ["cluster-2", "TWO", "node-2", "1.2.3.4", "10.0.0.1", "rack-1"]]

/-- The full emission of the `up2` scrape: cluster-1 contributes only its
cluster-health observations, cluster-2 everything. -/
def outUp2 : List Observation := VariantA.clusterHealthCollector cl1 ++ obsCluster2

/-- Scrape fixture for claim C3: one cluster whose datacentre has two nodes;
node-1's metrics response is malformed, node-2's is fine. -/
def up3 : VariantA.Upstream where
  GetClusters := some (Json.arr [clusterJson "cluster-1" "ONE"])
  GetClusterStatus := fun id =>
    if id = "cluster-1" then some (statusJson [nodeJson "node-1", nodeJson "node-2"]) else none
  GetNodeMetric := fun id _ =>
    if id = "node-2" then some (payloadJson "node-2" [metricJson "cpuUtilization" "percentage" "1" [valueJson "2.5"]]) else none

/-- Scrape fixture for claim C4's witness: the cluster-list bytes fail to
parse. -/
def up4 : VariantA.Upstream where
  GetClusters := none
  GetClusterStatus := fun _ => none
  GetNodeMetric := fun _ _ => none

/-- Scrape fixture for claim C5: one healthy cluster and node whose only
metric record carries an empty `values` array. -/
def up5 : VariantA.Upstream where
  GetClusters := some (Json.arr [clusterJson "cluster-1" "ONE"])
  GetClusterStatus := fun id =>
    if id = "cluster-1" then some (statusJson [nodeJson "node-1"]) else none
  GetNodeMetric := fun id _ =>
    if id = "node-1" then some (payloadJson "node-1" [metricJson "cpuUtilization" "percentage" "1" []]) else none

/-- Scrape fixture for claim C10's witness: every cluster-status request is
answered with the upstream 404 JSON error body. -/
def up10 : VariantA.Upstream where
  GetClusters := some (Json.arr [clusterJson "cluster-1" "ONE"])
  GetClusterStatus := fun _ => some json404
  GetNodeMetric := fun _ _ => none

/-- A metric record whose first value is not a number. -/
def naMetric : metric := ⟨"cpuUtilization", "percentage", "1", [⟨"N/A", "T0"⟩]⟩

/-- A client handle as configured against the production API. -/
def client : Instaclustr.instaclustrClient :=
  ⟨"https://api.instaclustr.com", "user", "key", "provisioning", "v1"⟩

/-- A decoded node-metrics response with one cpuUtilization sample "2.5". -/
def ms2 : List metrics := [⟨[⟨"cpuUtilization", "percentage", "1", [⟨"2.5", "T0"⟩]⟩]⟩]

/-- The observation variant A emits for the sample in `ms2`, about cluster-2's
node-2. -/
def cpuObs2 : Observation :=
  MustNewConstMetric VariantA.nodeCPUUtilizationPercentage ValueType.GaugeValue (mkRat 5 2)
    ["cluster-2", "TWO", "node-2", "1.2.3.4", "10.0.0.1", "rack-1"]

/-- One of the four client-request metric records (claim C9). -/
def mFour : metric := ⟨"clientRequestRead", "latency_per_operation", "us/1", [⟨"3", "T0"⟩]⟩

/-- A metric record outside the four client-request ones (claim C9). -/
def mCpu : metric := ⟨"cpuUtilization", "percentage", "1", [⟨"3", "T0"⟩]⟩

end Fixtures

/-- The four client-request metric records singled out by the spec: name
clientRequestRead or clientRequestWrite, type latency_per_operation or
95thPercentile.  (This classifier follows the spec's wording; it is the
statement language of claim C9, not part of the program.) -/
def fourClientRequestMetric (m : metric) : Prop :=
  (m.Name = "clientRequestRead" ∨ m.Name = "clientRequestWrite")
  ∧ (m.Type' = "latency_per_operation" ∨ m.Type' = "95thPercentile")

/-! ## Theorems -/

/-- Claim C1: for every decoded Cluster record, the cluster-health
observation (cassandra_cluster_running) has value exactly 1 when
derivedStatus = "RUNNING" and exactly 0 for every other status string
(including the empty string), and the same mapping holds for node status and
the node_running observation — in both collector variants.  The equations
characterize the full emission of the health collectors, so the running
observation with the stated value is the only one of its descriptor. -/
theorem c1_health_status_maps_to_unit_value :
    ∀ (c : VariantA.cluster) (cb : VariantB.cluster) (n : node),
    VariantA.clusterHealthCollector c =
      MustNewConstMetric VariantA.clusterRunning ValueType.GaugeValue
        (if c.DerivedStatus = "RUNNING" then 1 else 0) [c.ID, c.Name]
      :: [MustNewConstMetric VariantA.clusterNodesCount ValueType.GaugeValue
            (c.NodeCount : ℚ) [c.ID, c.Name],
          MustNewConstMetric VariantA.clusterNodesRunningCount ValueType.GaugeValue
            (c.RunningNodeCount : ℚ) [c.ID, c.Name]]
    ∧ VariantA.nodeHealthCollector c n =
      [MustNewConstMetric VariantA.nodeRunning ValueType.GaugeValue
        (if n.Status = "RUNNING" then 1 else 0)
        [c.ID, c.Name, n.ID, n.PublicIP, n.PrivateIP, n.Rack]]
    ∧ VariantB.clusterHealthCollector cb =
      MustNewConstMetric VariantB.clusterRunning ValueType.GaugeValue
        (if cb.DerivedStatus = "RUNNING" then 1 else 0) [cb.ID]
      :: [MustNewConstMetric VariantB.clusterNodesCount ValueType.GaugeValue
            cb.NodeCount [cb.ID],
          MustNewConstMetric VariantB.clusterNodesRunningCount ValueType.GaugeValue
            cb.RunningNodeCount [cb.ID]]
    ∧ VariantB.nodeHealthCollector cb n =
      [MustNewConstMetric VariantB.nodeRunning ValueType.GaugeValue
        (if n.Status = "RUNNING" then 1 else 0) [n.ID]] := by
  intro c cb n
  refine ⟨?_, ?_, ?_, ?_⟩
  · by_cases h : c.DerivedStatus = "RUNNING" <;>
      simp [VariantA.clusterHealthCollector, h]
  · by_cases h : n.Status = "RUNNING" <;>
      simp [VariantA.nodeHealthCollector, h]
  · by_cases h : cb.DerivedStatus = "RUNNING" <;>
      simp [VariantB.clusterHealthCollector, h]
  · by_cases h : n.Status = "RUNNING" <;>
      simp [VariantB.nodeHealthCollector, h]

/-- Claim C4: when the cluster-list response fails to decode, the scrape
emits no observations at all and returns (the error is only logged — Collect
has no error channel to its caller apart from the log). -/
theorem c4_cluster_list_decode_failure_aborts_scrape :
    ∀ (up : VariantA.Upstream),
    VariantA.decodeClusters up.GetClusters = none →
    VariantA.Collect up = RunResult.ok [] := by
  intro up h
  unfold VariantA.Collect
  rw [h]

/-- Witness for C4 at the concrete malformed-cluster-list fixture. -/
theorem c4_cluster_list_decode_failure_aborts_scrape_witness :
    VariantA.decodeClusters Fixtures.up4.GetClusters = none
    ∧ VariantA.Collect Fixtures.up4 = RunResult.ok [] :=
  ⟨rfl, c4_cluster_list_decode_failure_aborts_scrape Fixtures.up4 rfl⟩

/-- Claim C10: decoding the upstream 404 JSON error body
(`{"status":404,"message":...,"link":...}`) into the `datacentres` shape
succeeds with an empty dataCentres list (unknown keys are ignored and the
absent `dataCentres` key leaves the zero value), so a cluster whose status
request is answered that way silently yields exactly its cluster-health
observations and zero node observations, without entering the decode-error
branch. -/
theorem c10_error_body_decodes_to_empty_datacentres :
    GoJson.decodeDatacentres (some Fixtures.json404) = some ⟨[]⟩
    ∧ ∀ (up : VariantA.Upstream) (c : VariantA.cluster),
        up.GetClusterStatus c.ID = some Fixtures.json404 →
        VariantA.collectClusterWorker up c =
          RunResult.ok (VariantA.clusterHealthCollector c) := by
  refine ⟨rfl, ?_⟩
  intro up c h
  unfold VariantA.collectClusterWorker
  rw [h]
  show RunResult.ok (VariantA.clusterHealthCollector c ++ ([] : List Observation)) = _
  rw [List.append_nil]

/-- Witness for C10: a scrape whose every cluster-status request is answered
by the 404 error body. -/
theorem c10_error_body_decodes_to_empty_datacentres_witness :
    Fixtures.up10.GetClusterStatus Fixtures.cl1.ID = some Fixtures.json404
    ∧ VariantA.collectClusterWorker Fixtures.up10 Fixtures.cl1 =
        RunResult.ok (VariantA.clusterHealthCollector Fixtures.cl1) :=
  ⟨rfl, (c10_error_body_decodes_to_empty_datacentres).2 Fixtures.up10 Fixtures.cl1 rfl⟩

/-- Claim C8, counterexample: a completed upstream response with the non-2xx
status 404 and the documented JSON error body is returned by the client as
ordinary data, not as an error — `sendRequest` never inspects the status
code, and the client's own test suite expects the 404 body verbatim. -/
theorem c8_non2xx_status_returned_as_data :
    Instaclustr.sendRequest
      (Instaclustr.HttpResult.response 404 (some Instaclustr.notFoundBody))
      = some Instaclustr.notFoundBody
    ∧ Instaclustr.GetClusterStatus Fixtures.client
        ⟨fun _ => Instaclustr.HttpResult.response 404 (some Instaclustr.notFoundBody)⟩
        "unknown-cluster"
      = some Instaclustr.notFoundBody :=
  ⟨rfl, rfl⟩

/-- Claim C8 as amended: each of the three client operations yields an error
(a nil byte slice) on a transport failure and on a body-read failure, never
retries (each operation consults the network exactly once, by construction
of `Transport`), and returns the body of any completed response as data
regardless of its status code. -/
theorem c8_client_error_conditions :
    ∀ (c : Instaclustr.instaclustrClient) (s : Nat) (b clusterID nodeID mq : String),
    Instaclustr.GetClusters c ⟨fun _ => Instaclustr.HttpResult.transportError⟩ = none
    ∧ Instaclustr.GetClusters c ⟨fun _ => Instaclustr.HttpResult.response s none⟩ = none
    ∧ Instaclustr.GetClusters c ⟨fun _ => Instaclustr.HttpResult.response s (some b)⟩ = some b
    ∧ Instaclustr.GetClusterStatus c ⟨fun _ => Instaclustr.HttpResult.transportError⟩ clusterID = none
    ∧ Instaclustr.GetClusterStatus c ⟨fun _ => Instaclustr.HttpResult.response s none⟩ clusterID = none
    ∧ Instaclustr.GetClusterStatus c ⟨fun _ => Instaclustr.HttpResult.response s (some b)⟩ clusterID = some b
    ∧ Instaclustr.GetNodeMetric c ⟨fun _ => Instaclustr.HttpResult.transportError⟩ nodeID mq = none
    ∧ Instaclustr.GetNodeMetric c ⟨fun _ => Instaclustr.HttpResult.response s none⟩ nodeID mq = none
    ∧ Instaclustr.GetNodeMetric c ⟨fun _ => Instaclustr.HttpResult.response s (some b)⟩ nodeID mq = some b := by
  intro c s b clusterID nodeID mq
  exact ⟨rfl, rfl, rfl, rfl, rfl, rfl, rfl, rfl, rfl⟩

/-- Membership lemma for the cluster fan-out: if the whole loop succeeds,
every observation of any one worker's successful emission is in the joined
output.  (Workers are independent: `collectClusterWorker up c'` does not
depend on any other cluster.) -/
theorem VariantA.clustersLoop_mem (up : VariantA.Upstream) :
    ∀ (cs : List VariantA.cluster) (c' : VariantA.cluster)
      (obs' out : List Observation),
    c' ∈ cs →
    VariantA.collectClusterWorker up c' = RunResult.ok obs' →
    VariantA.clustersLoop up cs = RunResult.ok out →
    ∀ o ∈ obs', o ∈ out := by
  intro cs
  induction cs with
  | nil => intro c' obs' out hmem; cases hmem
  | cons c rest ih =>
    intro c' obs' out hmem hw hloop o ho
    unfold VariantA.clustersLoop at hloop
    rcases List.mem_cons.mp hmem with hc | hc
    · subst hc
      rw [hw] at hloop
      cases htail : VariantA.clustersLoop up rest with
      | crashed => rw [htail] at hloop; simp at hloop
      | ok tail =>
        rw [htail] at hloop
        injection hloop with h
        subst h
        exact List.mem_append_left _ ho
    · cases hw0 : VariantA.collectClusterWorker up c with
      | crashed => rw [hw0] at hloop; simp at hloop
      | ok out0 =>
        rw [hw0] at hloop
        cases htail : VariantA.clustersLoop up rest with
        | crashed => rw [htail] at hloop; simp at hloop
        | ok tail =>
          rw [htail] at hloop
          injection hloop with h
          subst h
          exact List.mem_append_right _ (ih c' obs' tail hc hw htail o ho)

/-- Claim C2: a scrape in which the cluster-status lookup of one cluster
fails to decode still emits every observation (in particular the node
metrics) of every other cluster's worker: one cluster's failure never aborts
the other clusters' collection. -/
theorem c2_single_cluster_failure_is_isolated :
    ∀ (up : VariantA.Upstream) (cs : List VariantA.cluster)
      (c c' : VariantA.cluster) (obs' out : List Observation),
    VariantA.decodeClusters up.GetClusters = some cs →
    c ∈ cs →
    GoJson.decodeDatacentres (up.GetClusterStatus c.ID) = none →
    c' ∈ cs →
    VariantA.collectClusterWorker up c' = RunResult.ok obs' →
    VariantA.Collect up = RunResult.ok out →
    ∀ o ∈ obs', o ∈ out := by
  intro up cs c c' obs' out hdec _hmem _hfail hmem' hw hcol
  have hloop : VariantA.clustersLoop up cs = RunResult.ok out := by
    unfold VariantA.Collect at hcol
    rw [hdec] at hcol
    exact hcol
  exact VariantA.clustersLoop_mem up cs c' obs' out hmem' hw hloop

/-- Witness for C2: in the two-cluster fixture where cluster-1's status
response is malformed, cluster-2's node-running observation is still in the
scrape's output. -/
theorem c2_single_cluster_failure_is_isolated_witness :
    VariantA.Collect Fixtures.up2 = RunResult.ok Fixtures.outUp2
    ∧ Fixtures.node2RunningObs ∈ Fixtures.outUp2 :=
  ⟨by decide,
   c2_single_cluster_failure_is_isolated Fixtures.up2 [Fixtures.cl1, Fixtures.cl2]
     Fixtures.cl1 Fixtures.cl2 Fixtures.obsCluster2 Fixtures.outUp2
     (by decide) (by decide) rfl (by decide) (by decide) (by decide)
     Fixtures.node2RunningObs (by decide)⟩

/-- Claim C3 (the code violates it): in the fixture where cluster-1's
datacentre holds node-1 and node-2 and only node-1's metrics response is
malformed, the scrape's entire output is cluster-1's health observations
plus node-1's health observation — node-2's node-health (and everything
else about node-2) is missing, because the per-cluster goroutine `return`s
on the decode error instead of continuing with the next node. -/
theorem c3_node_metrics_failure_aborts_remaining_nodes :
    VariantA.Collect Fixtures.up3 =
      RunResult.ok (VariantA.clusterHealthCollector Fixtures.cl1
        ++ VariantA.nodeHealthCollector Fixtures.cl1 (Fixtures.nodeRec "node-1"))
    ∧ GoJson.decodeDatacentres (Fixtures.up3.GetClusterStatus "cluster-1")
        = some ⟨[⟨"dc-1", "DC_ONE", "AWS_VPC", [],
                 [Fixtures.nodeRec "node-1", Fixtures.nodeRec "node-2"]⟩]⟩
    ∧ MustNewConstMetric VariantA.nodeRunning ValueType.GaugeValue 1
        ["cluster-1", "ONE", "node-2", "1.2.3.4", "10.0.0.1", "rack-1"]
      ∉ (VariantA.clusterHealthCollector Fixtures.cl1
        ++ VariantA.nodeHealthCollector Fixtures.cl1 (Fixtures.nodeRec "node-1")) :=
  ⟨by decide, rfl, by decide⟩

/-- Claim C5 (the code violates it): a MetricSample whose values array is
empty makes the collector index `m.Values[0]` out of range; the resulting
panic in a goroutine without recover crashes the whole process.  Evaluated
both at the single metric record and end to end at a full scrape fixture. -/
theorem c5_empty_values_array_crashes_scrape :
    VariantA.collectOneMetric Fixtures.cl1 (Fixtures.nodeRec "node-1")
      ⟨"cpuUtilization", "percentage", "1", []⟩ = RunResult.crashed
    ∧ VariantA.Collect Fixtures.up5 = RunResult.crashed :=
  ⟨rfl, by decide⟩

/-- Every observation the variant-A metric switch emits carries the full
identity label tuple of its cluster and node. -/
theorem VariantA.metricSwitch_labels :
    ∀ (c : VariantA.cluster) (n : node) (m : metric) (v : ℚ) (o : Observation),
    o ∈ VariantA.metricSwitch c n m v →
    o.labelValues = [c.ID, c.Name, n.ID, n.PublicIP, n.PrivateIP, n.Rack] := by
  intro c n m v o ho
  unfold VariantA.metricSwitch at ho
  by_cases h1 : m.Name = "cpuUtilization"
  · simp only [if_pos h1, List.mem_singleton] at ho; subst ho; rfl
  simp only [if_neg h1] at ho
  by_cases h2 : m.Name = "diskUtilization"
  · simp only [if_pos h2, List.mem_singleton] at ho; subst ho; rfl
  simp only [if_neg h2] at ho
  by_cases h3 : m.Name = "cassandraReads"
  · simp only [if_pos h3, List.mem_singleton] at ho; subst ho; rfl
  simp only [if_neg h3] at ho
  by_cases h4 : m.Name = "cassandraWrites"
  · simp only [if_pos h4, List.mem_singleton] at ho; subst ho; rfl
  simp only [if_neg h4] at ho
  by_cases h5 : m.Name = "compactions"
  · simp only [if_pos h5, List.mem_singleton] at ho; subst ho; rfl
  simp only [if_neg h5] at ho
  by_cases h6 : m.Name = "repairs"
  · simp only [if_pos h6] at ho
    by_cases h6a : m.Type' = "pendingtasks"
    · simp only [if_pos h6a, List.mem_singleton] at ho; subst ho; rfl
    simp only [if_neg h6a] at ho
    by_cases h6b : m.Type' = "activetasks"
    · simp only [if_pos h6b, List.mem_singleton] at ho; subst ho; rfl
    simp only [if_neg h6b] at ho
    cases ho
  simp only [if_neg h6] at ho
  by_cases h7 : m.Name = "clientRequestRead"
  · simp only [if_pos h7] at ho
    by_cases h7a : m.Type' = "latency_per_operation"
    · simp only [if_pos h7a, List.mem_singleton] at ho; subst ho; rfl
    simp only [if_neg h7a] at ho
    by_cases h7b : m.Type' = "95thPercentile"
    · simp only [if_pos h7b, List.mem_singleton] at ho; subst ho; rfl
    simp only [if_neg h7b] at ho
    cases ho
  simp only [if_neg h7] at ho
  by_cases h8 : m.Name = "clientRequestWrite"
  · simp only [if_pos h8] at ho
    by_cases h8a : m.Type' = "latency_per_operation"
    · simp only [if_pos h8a, List.mem_singleton] at ho; subst ho; rfl
    simp only [if_neg h8a] at ho
    by_cases h8b : m.Type' = "95thPercentile"
    · simp only [if_pos h8b, List.mem_singleton] at ho; subst ho; rfl
    simp only [if_neg h8b] at ho
    cases ho
  simp only [if_neg h8] at ho
  cases ho

/-- Label-tuple propagation through one metric record. -/
theorem VariantA.collectOneMetric_labels :
    ∀ (c : VariantA.cluster) (n : node) (m : metric) (out : List Observation),
    VariantA.collectOneMetric c n m = RunResult.ok out →
    ∀ o ∈ out,
    o.labelValues = [c.ID, c.Name, n.ID, n.PublicIP, n.PrivateIP, n.Rack] := by
  intro c n m out h o ho
  unfold VariantA.collectOneMetric at h
  cases hv : m.Values with
  | nil => rw [hv] at h; simp at h
  | cons v vs =>
    rw [hv] at h
    injection h with h'
    subst h'
    exact VariantA.metricSwitch_labels c n m _ o ho

/-- Label-tuple propagation through one payload's metric list. -/
theorem VariantA.metricsLoop_labels :
    ∀ (c : VariantA.cluster) (n : node) (ml : List metric) (out : List Observation),
    VariantA.metricsLoop c n ml = RunResult.ok out →
    ∀ o ∈ out,
    o.labelValues = [c.ID, c.Name, n.ID, n.PublicIP, n.PrivateIP, n.Rack] := by
  intro c n ml
  induction ml with
  | nil =>
    intro out h o ho
    unfold VariantA.metricsLoop at h
    injection h with h'
    subst h'
    cases ho
  | cons m rest ih =>
    intro out h o ho
    unfold VariantA.metricsLoop at h
    cases h1 : VariantA.collectOneMetric c n m with
    | crashed => rw [h1] at h; simp at h
    | ok out1 =>
      rw [h1] at h
      cases h2 : VariantA.metricsLoop c n rest with
      | crashed => rw [h2] at h; simp at h
      | ok tail =>
        rw [h2] at h
        injection h with h'
        subst h'
        rcases List.mem_append.mp ho with h3 | h3
        · exact VariantA.collectOneMetric_labels c n m out1 h1 o h3
        · exact ih tail h2 o h3

/-- Label-tuple propagation through a whole node-metrics response. -/
theorem VariantA.nodeMetricsCollector_labels :
    ∀ (c : VariantA.cluster) (n : node) (ms : List metrics) (out : List Observation),
    VariantA.nodeMetricsCollector c n ms = RunResult.ok out →
    ∀ o ∈ out,
    o.labelValues = [c.ID, c.Name, n.ID, n.PublicIP, n.PrivateIP, n.Rack] := by
  intro c n ms
  induction ms with
  | nil =>
    intro out h o ho
    unfold VariantA.nodeMetricsCollector at h
    injection h with h'
    subst h'
    cases ho
  | cons mc rest ih =>
    intro out h o ho
    unfold VariantA.nodeMetricsCollector at h
    cases h1 : VariantA.metricsLoop c n mc.Metrics with
    | crashed => rw [h1] at h; simp at h
    | ok out1 =>
      rw [h1] at h
      cases h2 : VariantA.nodeMetricsCollector c n rest with
      | crashed => rw [h2] at h; simp at h
      | ok tail =>
        rw [h2] at h
        injection h with h'
        subst h'
        rcases List.mem_append.mp ho with h3 | h3
        · exact VariantA.metricsLoop_labels c n mc.Metrics out1 h1 o h3
        · exact ih tail h2 o h3

/-- Claim C6: within one scrape, every observation emitted about a node —
its node-health observation and every per-sample metric observation (this
variant emits no node-info) — carries the identical identity label tuple
(clusterId, clusterName, nodeId, nodePublicIp, nodePrivateIp, rack) taken
from that scrape's decoded cluster and node records; none carries a
different or partial label set. -/
theorem c6_node_observations_carry_identical_label_tuple :
    ∀ (c : VariantA.cluster) (n : node),
    (∀ o ∈ VariantA.nodeHealthCollector c n,
      o.labelValues = [c.ID, c.Name, n.ID, n.PublicIP, n.PrivateIP, n.Rack])
    ∧ (∀ (ms : List metrics) (out : List Observation),
      VariantA.nodeMetricsCollector c n ms = RunResult.ok out →
      ∀ o ∈ out,
      o.labelValues = [c.ID, c.Name, n.ID, n.PublicIP, n.PrivateIP, n.Rack]) := by
  intro c n
  constructor
  · intro o ho
    unfold VariantA.nodeHealthCollector at ho
    split at ho <;> simp_all [MustNewConstMetric]
  · exact VariantA.nodeMetricsCollector_labels c n

/-- Witness for C6 at cluster-2/node-2 with one decoded cpu sample. -/
theorem c6_node_observations_carry_identical_label_tuple_witness :
    Fixtures.node2RunningObs.labelValues
      = ["cluster-2", "TWO", "node-2", "1.2.3.4", "10.0.0.1", "rack-1"]
    ∧ Fixtures.cpuObs2.labelValues
      = ["cluster-2", "TWO", "node-2", "1.2.3.4", "10.0.0.1", "rack-1"] :=
  ⟨(c6_node_observations_carry_identical_label_tuple Fixtures.cl2
      (Fixtures.nodeRec "node-2")).1 Fixtures.node2RunningObs (by decide),
   (c6_node_observations_carry_identical_label_tuple Fixtures.cl2
      (Fixtures.nodeRec "node-2")).2 Fixtures.ms2 [Fixtures.cpuObs2]
      (by decide) Fixtures.cpuObs2 (by decide)⟩

/-- Claim C7: a MetricSample whose first value string is not a valid number
is not dropped: the parse error is recovered locally by substituting the
value 0, and the switch still emits the corresponding observation.  Also the
spec's concrete example: name "repairs", type "pendingtasks", first value
"3" produces exactly one repairs_pending observation with value 3. -/
theorem c7_unparseable_value_substitutes_zero :
    (∀ (c : VariantA.cluster) (n : node) (m : metric)
       (v : metricValue) (vs : List metricValue),
      m.Values = v :: vs →
      GoStrconv.ParseFloat v.Value = none →
      VariantA.collectOneMetric c n m = RunResult.ok (VariantA.metricSwitch c n m 0))
    ∧ (∀ (c : VariantA.cluster) (n : node),
      VariantA.collectOneMetric c n Fixtures.naMetric =
        RunResult.ok [MustNewConstMetric VariantA.nodeCPUUtilizationPercentage
          ValueType.GaugeValue 0 [c.ID, c.Name, n.ID, n.PublicIP, n.PrivateIP, n.Rack]])
    ∧ (∀ (c : VariantA.cluster) (n : node) (u t : String) (vs : List metricValue),
      VariantA.collectOneMetric c n ⟨"repairs", "pendingtasks", u, ⟨"3", t⟩ :: vs⟩ =
        RunResult.ok [MustNewConstMetric VariantA.nodeCassandraRepairsPending
          ValueType.GaugeValue 3 [c.ID, c.Name, n.ID, n.PublicIP, n.PrivateIP, n.Rack]]) := by
  refine ⟨?_, ?_, ?_⟩
  · intro c n m v vs hv hpf
    unfold VariantA.collectOneMetric
    rw [hv]
    show RunResult.ok (VariantA.metricSwitch c n m
      (match GoStrconv.ParseFloat v.Value with | none => 0 | some q => q)) = _
    rw [hpf]
  · intro c n
    rfl
  · intro c n u t vs
    rfl

/-- Witness for C7: the "N/A" cpuUtilization sample. -/
theorem c7_unparseable_value_substitutes_zero_witness :
    Fixtures.naMetric.Values = [⟨"N/A", "T0"⟩]
    ∧ GoStrconv.ParseFloat "N/A" = none
    ∧ VariantA.collectOneMetric Fixtures.cl1 (Fixtures.nodeRec "node-1") Fixtures.naMetric
      = RunResult.ok (VariantA.metricSwitch Fixtures.cl1 (Fixtures.nodeRec "node-1")
          Fixtures.naMetric 0) :=
  ⟨rfl, by decide,
   c7_unparseable_value_substitutes_zero.1 Fixtures.cl1 (Fixtures.nodeRec "node-1")
     Fixtures.naMetric ⟨"N/A", "T0"⟩ [] rfl (by decide)⟩

/-- Claim C9: the two collector variants' metric mappers agree on the
emitted value of every MetricSample except the four client-request ones
(clientRequestRead/clientRequestWrite × latency_per_operation/95thPercentile):
outside the four, the emitted value lists coincide (same samples mapped, same
samples skipped, identical values); for exactly the four, variant A emits the
raw parsed (microsecond) value while variant B emits the parsed value
multiplied by usTosecondsFactor = 1e-6 — uniformly over all four. -/
theorem c9_variant_mappers_agree_except_client_request :
    ∀ (ca : VariantA.cluster) (cb : VariantB.cluster) (n : node) (m : metric) (v : ℚ),
    (¬ fourClientRequestMetric m →
      (VariantA.metricSwitch ca n m v).map Observation.value
        = (VariantB.metricSwitch cb n m v).map Observation.value)
    ∧ (fourClientRequestMetric m →
      (VariantA.metricSwitch ca n m v).map Observation.value = [v]
      ∧ (VariantB.metricSwitch cb n m v).map Observation.value
          = [v * VariantB.usTosecondsFactor]) := by
  intro ca cb n m v
  constructor
  · intro h
    unfold VariantA.metricSwitch VariantB.metricSwitch
    by_cases h1 : m.Name = "cpuUtilization"
    · simp only [if_pos h1]; rfl
    simp only [if_neg h1]
    by_cases h2 : m.Name = "diskUtilization"
    · simp only [if_pos h2]; rfl
    simp only [if_neg h2]
    by_cases h3 : m.Name = "cassandraReads"
    · simp only [if_pos h3]; rfl
    simp only [if_neg h3]
    by_cases h4 : m.Name = "cassandraWrites"
    · simp only [if_pos h4]; rfl
    simp only [if_neg h4]
    by_cases h5 : m.Name = "compactions"
    · simp only [if_pos h5]; rfl
    simp only [if_neg h5]
    by_cases h6 : m.Name = "repairs"
    · simp only [if_pos h6]
      by_cases h6a : m.Type' = "pendingtasks"
      · simp only [if_pos h6a]; rfl
      simp only [if_neg h6a]
      by_cases h6b : m.Type' = "activetasks"
      · simp only [if_pos h6b]; rfl
      simp only [if_neg h6b]
    simp only [if_neg h6]
    by_cases h7 : m.Name = "clientRequestRead"
    · simp only [if_pos h7]
      by_cases h7a : m.Type' = "latency_per_operation"
      · exact absurd ⟨Or.inl h7, Or.inl h7a⟩ h
      simp only [if_neg h7a]
      by_cases h7b : m.Type' = "95thPercentile"
      · exact absurd ⟨Or.inl h7, Or.inr h7b⟩ h
      simp only [if_neg h7b]
    simp only [if_neg h7]
    by_cases h8 : m.Name = "clientRequestWrite"
    · simp only [if_pos h8]
      by_cases h8a : m.Type' = "latency_per_operation"
      · exact absurd ⟨Or.inr h8, Or.inl h8a⟩ h
      simp only [if_neg h8a]
      by_cases h8b : m.Type' = "95thPercentile"
      · exact absurd ⟨Or.inr h8, Or.inr h8b⟩ h
      simp only [if_neg h8b]
    simp only [if_neg h8]
  · intro h
    obtain ⟨hn, ht⟩ := h
    unfold VariantA.metricSwitch VariantB.metricSwitch
    rcases hn with hn | hn <;> rcases ht with ht | ht <;> rw [hn, ht] <;> exact ⟨rfl, rfl⟩

/-- Witness for C9: one of the four (clientRequestRead latency) and one
sample outside the four (cpuUtilization), at the concrete value 3. -/
theorem c9_variant_mappers_agree_except_client_request_witness :
    ((VariantA.metricSwitch Fixtures.cl1 (Fixtures.nodeRec "node-1") Fixtures.mFour 3).map
        Observation.value = [3]
      ∧ (VariantB.metricSwitch ⟨"cluster-1", "ONE", 1, 1, "RUNNING"⟩
          (Fixtures.nodeRec "node-1") Fixtures.mFour 3).map Observation.value
        = [(3 : ℚ) * VariantB.usTosecondsFactor])
    ∧ (VariantA.metricSwitch Fixtures.cl1 (Fixtures.nodeRec "node-1") Fixtures.mCpu 3).map
        Observation.value
      = (VariantB.metricSwitch ⟨"cluster-1", "ONE", 1, 1, "RUNNING"⟩
          (Fixtures.nodeRec "node-1") Fixtures.mCpu 3).map Observation.value :=
  ⟨(c9_variant_mappers_agree_except_client_request Fixtures.cl1
      ⟨"cluster-1", "ONE", 1, 1, "RUNNING"⟩ (Fixtures.nodeRec "node-1")
      Fixtures.mFour 3).2 ⟨Or.inl rfl, Or.inl rfl⟩,
   (c9_variant_mappers_agree_except_client_request Fixtures.cl1
      ⟨"cluster-1", "ONE", 1, 1, "RUNNING"⟩ (Fixtures.nodeRec "node-1")
      Fixtures.mCpu 3).1 (by intro hf; exact absurd hf.1 (by decide))⟩
